import Mathlib

/-!
Verification development for the MedMe appointment-scheduling service.

The definitions below are a shallow embedding of the TypeScript core:
the `appointments` table and the SQL of PostgresAppointmentRepository
(src/repositories/postgresAppointmentRepository.ts), the AppointmentEntity
model (src/models/AppointmentEntity.ts) and the AppointmentService engine
(src/services/appointmentService.ts).  Timestamps are modelled as integer
milliseconds since the epoch (the value of Date.getTime()); the database is
an explicit list of rows; the external calendar collaborator is an oracle
argument describing its outcome.
-/

deriving instance DecidableEq for Except

namespace MedMe

/-- Milliseconds since the epoch, the value of Date.getTime(). -/
abbrev Millis := Int

/-- Appointment lifecycle status (AppointmentStatus in types/schedule.ts). -/
inductive AppointmentStatus where
  | scheduled
  | confirmed
  | cancelled
  | completed
deriving DecidableEq, Repr

/-- Appointment kind (AppointmentType in types/schedule.ts). -/
inductive AppointmentType where
  | consultation
  | followUp
  | checkUp
  | emergency
  | vaccination
  | screening
  | therapy
  | surgery
  | diagnostic
  | preventive
  | specialist
  | routine
deriving DecidableEq, Repr

/-- Models the TypeScript idiom `s || null` / `s || undefined` applied to an
optional string: both absence and the (falsy) empty string collapse to none. -/
def strOrNone : Option String → Option String
  | some s => if s = "" then none else some s
  | none => none

/-- True on the statuses the SQL filters call active:
`status IN ('scheduled', 'confirmed')`. -/
def isActiveStatus : AppointmentStatus → Bool
  | .scheduled => true
  | .confirmed => true
  | _ => false

/-- A row of the `appointments` table.  Columns follow the schema used by the
repository (id, first_name, last_name, email, phone_number, start_at, end_at,
type, status, notes, reason, calendar_event_id, created_at, updated_at).
The jsonb `notes` column is opaque to the engine and kept as its serialized
form. -/
structure DbRow where
  id : String
  firstName : String
  lastName : String
  email : Option String
  phoneNumber : Option String
  startAt : Millis
  endAt : Millis
  type : AppointmentType
  status : AppointmentStatus
  notes : String
  reason : Option String
  calendarEventId : Option String
  createdAt : Millis
  updatedAt : Option Millis
deriving DecidableEq, Repr

/-- AppointmentEntity (src/models/AppointmentEntity.ts): the in-memory record.
Optional Date-or-null fields are collapsed into Option. -/
structure AppointmentEntity where
  id : Option String
  firstName : String
  lastName : String
  email : Option String
  phoneNumber : Option String
  startAt : Millis
  endAt : Millis
  type : AppointmentType
  status : AppointmentStatus
  reason : Option String
  calendarEventId : Option String
  createdAt : Option Millis
  updatedAt : Option Millis
  notes : String
deriving DecidableEq, Repr

/-- mapRowToEntity of PostgresAppointmentRepository: nullable text columns go
through the `row.x || undefined` truthiness collapse. -/
def mapRowToEntity (row : DbRow) : AppointmentEntity :=
  { id := some row.id
    firstName := row.firstName
    lastName := row.lastName
    email := strOrNone row.email
    phoneNumber := strOrNone row.phoneNumber
    startAt := row.startAt
    endAt := row.endAt
    type := row.type
    status := row.status
    reason := strOrNone row.reason
    calendarEventId := strOrNone row.calendarEventId
    createdAt := some row.createdAt
    updatedAt := row.updatedAt
    notes := row.notes }

/-- The WHERE clause of getConflictingAppointments:
`start_at < $1 AND end_at > $2 AND status IN ('scheduled','confirmed')`
with `$1 = endAt`, `$2 = startAt`, plus `AND id != $3` when an exclude id is
supplied. -/
def conflictWhere (startAt endAt : Millis) (excludeId : Option String)
    (r : DbRow) : Bool :=
  decide (r.startAt < endAt) && decide (r.endAt > startAt) &&
    isActiveStatus r.status &&
      (match excludeId with
       | some x => decide (r.id ≠ x)
       | none => true)

/-- getConflictingAppointments of PostgresAppointmentRepository: the rows
matched by the conflict WHERE clause, each mapped to an entity. -/
def getConflictingAppointments (db : List DbRow) (startAt endAt : Millis)
    (excludeId : Option String) : List AppointmentEntity :=
  (db.filter (conflictWhere startAt endAt excludeId)).map mapRowToEntity

/-- Insertion step for sorting rows in ascending start_at order. -/
def insertByStart (r : DbRow) : List DbRow → List DbRow
  | [] => [r]
  | x :: xs => if r.startAt ≤ x.startAt then r :: x :: xs else x :: insertByStart r xs

/-- Models the SQL `ORDER BY start_at` (ascending) applied to a row set. -/
def sortByStartAsc : List DbRow → List DbRow
  | [] => []
  | x :: xs => insertByStart x (sortByStartAsc xs)

/-- The WHERE clause of getActiveAppointmentsByEmailOrPhone:
`(email = $1 OR phone_number = $1) AND status IN ('scheduled','confirmed')`. -/
def contactWhere (v : String) (r : DbRow) : Bool :=
  (decide (r.email = some v) || decide (r.phoneNumber = some v)) &&
    isActiveStatus r.status

/-- getActiveAppointmentsByEmailOrPhone of PostgresAppointmentRepository:
matching rows ordered by `ORDER BY start_at`, mapped to entities. -/
def getActiveAppointmentsByEmailOrPhone (db : List DbRow) (v : String) :
    List AppointmentEntity :=
  (sortByStartAsc (db.filter (contactWhere v))).map mapRowToEntity

/-- Failures the storage layer can raise.  The error taxonomy of
types/errors.ts includes NotFoundError; the pg driver raises constraint
violations; mapping an empty RETURNING result raises a TypeError
(reading a property of undefined). -/
inductive RepoError where
  | uniqueViolation (msg : String)
  | checkViolation (msg : String)
  | mapUndefined (msg : String)
  | notFound (msg : String)
deriving DecidableEq, Repr

/-- Human-readable message of a storage failure (Error.message). -/
def RepoError.message : RepoError → String
  | .uniqueViolation m => m
  | .checkViolation m => m
  | .mapUndefined m => m
  | .notFound m => m

/-- Row written by the INSERT of PostgresAppointmentRepository.create:
status is forced to 'scheduled', nullable columns go through `|| null`,
created_at defaults to now() and updated_at is not inserted. -/
def rowFromInsert (a : AppointmentEntity) (newId : String) (now : Millis) : DbRow :=
  { id := newId
    firstName := a.firstName
    lastName := a.lastName
    email := strOrNone a.email
    phoneNumber := strOrNone a.phoneNumber
    startAt := a.startAt
    endAt := a.endAt
    type := a.type
    status := .scheduled
    notes := a.notes
    reason := strOrNone a.reason
    calendarEventId := strOrNone a.calendarEventId
    createdAt := now
    updatedAt := none }

/-- The INSERT of PostgresAppointmentRepository.create, checked against the
constraints of the appointments table schema:
CHECK (end_at > start_at), CHECK (email IS NOT NULL OR phone_number IS NOT
NULL), UNIQUE (start_at, end_at). -/
def insertRow (db : List DbRow) (a : AppointmentEntity) (newId : String)
    (now : Millis) : Except RepoError DbRow :=
  if a.endAt ≤ a.startAt then
    .error (.checkViolation "appointments_time_range")
  else if strOrNone a.email = none ∧ strOrNone a.phoneNumber = none then
    .error (.checkViolation "appointments_contact_required")
  else if db.any (fun r => decide (r.startAt = a.startAt) && decide (r.endAt = a.endAt)) then
    .error (.uniqueViolation "appointments_unique_slot")
  else
    .ok (rowFromInsert a newId now)

/-- PostgresAppointmentRepository.create: run the INSERT and map the returned
row; a database error is logged and rethrown unchanged. -/
def repoCreate (db : List DbRow) (a : AppointmentEntity) (newId : String)
    (now : Millis) : Except RepoError (AppointmentEntity × List DbRow) :=
  match insertRow db a newId now with
  | .error e => .error e
  | .ok row => .ok (mapRowToEntity row, db ++ [row])

/-- The column writes of the repository UPDATE statement:
`SET start_at, end_at, type, notes, calendar_event_id, status, updated_at`
taken from the entity, updated_at from a fresh Date. -/
def applyUpdateRow (a : AppointmentEntity) (now : Millis) (r : DbRow) : DbRow :=
  { r with
      startAt := a.startAt
      endAt := a.endAt
      type := a.type
      notes := a.notes
      calendarEventId := a.calendarEventId
      status := a.status
      updatedAt := some now }

/-- Table state after the repository UPDATE statement: every row whose id
matches gets the mutable columns replaced, all other rows are untouched. -/
def updatedTable (db : List DbRow) (id : String) (a : AppointmentEntity)
    (now : Millis) : List DbRow :=
  db.map (fun r => if r.id = id then applyUpdateRow a now r else r)

/-- PostgresAppointmentRepository.update: UPDATE ... WHERE id = $8
RETURNING *, then mapRowToEntity(result.rows[0]).  When no row matches, the
statement commits with zero rows and mapping the undefined first row raises a
TypeError. -/
def repoUpdate (db : List DbRow) (id : String) (a : AppointmentEntity)
    (now : Millis) : Except RepoError (AppointmentEntity × List DbRow) :=
  match (updatedTable db id a now).find? (fun r => decide (r.id = id)) with
  | none => .error (.mapUndefined "Cannot read properties of undefined")
  | some row => .ok (mapRowToEntity row, updatedTable db id a now)

/-- PostgresAppointmentRepository.delete: DELETE WHERE id, reporting whether a
row was removed. -/
def repoDelete (db : List DbRow) (id : String) : Bool × List DbRow :=
  let remaining := db.filter (fun r => decide (r.id ≠ id))
  (decide (remaining.length < db.length), remaining)

/-- PostgresAppointmentRepository.findById: first row with the id, mapped, or
null. -/
def repoFindById (db : List DbRow) (id : String) : Option AppointmentEntity :=
  (db.find? (fun r => decide (r.id = id))).map mapRowToEntity

/-- ScheduleRequest (types/schedule.ts): the validated create payload.  The
engine never reads callId, so it is omitted here. -/
structure ScheduleRequest where
  firstName : String
  lastName : String
  email : Option String
  phoneNumber : Option String
  startAt : Millis
  endAt : Millis
  type : AppointmentType
  notes : String
  reason : Option String
deriving DecidableEq, Repr

/-- The ScheduleRequest branch of the AppointmentEntity constructor: fresh
record with status scheduled, createdAt now, updatedAt null, no id and no
calendar reference. -/
def entityFromRequest (now : Millis) (d : ScheduleRequest) : AppointmentEntity :=
  { id := none
    firstName := d.firstName
    lastName := d.lastName
    email := d.email
    phoneNumber := d.phoneNumber
    startAt := d.startAt
    endAt := d.endAt
    type := d.type
    status := .scheduled
    reason := d.reason
    calendarEventId := none
    createdAt := some now
    updatedAt := none
    notes := d.notes }

/-- AppointmentEntity.setCalendarEventId: sets the calendar reference and
bumps updatedAt. -/
def setCalendarEventId (a : AppointmentEntity) (eventId : String)
    (now : Millis) : AppointmentEntity :=
  { a with calendarEventId := some eventId, updatedAt := some now }

/-- Errors the AppointmentService can surface to its caller.  The class names
of types/errors.ts are kept; syncFailure models the plain `new Error` thrown
when the calendar step of creation fails; storage wraps a repository error
that propagates uncaught. -/
inductive ServiceError where
  | notFound (msg : String)
  | timeSlotUnavailable (msg : String)
  | cancellationError (msg : String)
  | syncFailure (msg : String)
  | storage (e : RepoError)
deriving DecidableEq, Repr

/-- True exactly on the SlotConflict error kind (TimeSlotUnavailableError). -/
def isSlotConflictResult : Except ServiceError AppointmentEntity → Bool
  | .error (.timeSlotUnavailable _) => true
  | _ => false

/-- Whole-system state threaded through the engine: the table plus the id
generator of the database (gen_random_uuid). -/
structure Env where
  db : List DbRow
  nextId : Nat
deriving DecidableEq, Repr

/-- Id assigned by the database for the n-th insert. -/
def genId (n : Nat) : String := "uuid-" ++ toString n

/-- Outcome of the external calendar create call (an oracle for the
collaborator's behaviour). -/
inductive CalendarOutcome where
  | ok (eventId : String)
  | fail (msg : String)
deriving DecidableEq, Repr

/-- Models Date.toISOString as an injective rendering of the instant; the
engine only embeds it into messages. -/
def isoString (t : Millis) : String := toString t

/-- The same-person probe of the service: `conflicts.find(apt =>
(email && apt.email === email) || (phoneNumber && apt.phoneNumber ===
phoneNumber))`, including the truthiness guard on the probe contact. -/
def sharesContact (email phoneNumber : Option String)
    (apt : AppointmentEntity) : Bool :=
  (match strOrNone email with
   | some e => decide (apt.email = some e)
   | none => false) ||
  (match strOrNone phoneNumber with
   | some p => decide (apt.phoneNumber = some p)
   | none => false)

/-- First conflicting appointment sharing the probe contact, if any. -/
def sameContactConflict (email phoneNumber : Option String)
    (conflicts : List AppointmentEntity) : Option AppointmentEntity :=
  conflicts.find? (sharesContact email phoneNumber)

/-- The compensation path of createAppointment: try to delete the freshly
created record (the delete attempt itself may throw, which is caught and only
logged), then throw the calendar-failure error. -/
def createRollback (env : Env) (createdId : String) (deleteThrows : Bool)
    (errMsg : String) : Except ServiceError AppointmentEntity × Env :=
  let env2 := if deleteThrows then env else { env with db := (repoDelete env.db createdId).2 }
  (.error (.syncFailure ("Failed to create calendar event: " ++ errMsg)), env2)

/-- AppointmentService.createAppointment: conflict pre-check with the
same-person message split, then create in the database first, then the
calendar call; calendar failure triggers compensation and a generic
sync-failure error.  `cal` is the calendar collaborator's outcome and
`deleteThrows` whether the compensation delete itself throws. -/
def createAppointment (env : Env) (now : Millis) (data : ScheduleRequest)
    (cal : CalendarOutcome) (deleteThrows : Bool) :
    Except ServiceError AppointmentEntity × Env :=
  if getConflictingAppointments env.db data.startAt data.endAt none = [] then
    match repoCreate env.db (entityFromRequest now data) (genId env.nextId) now with
    | .error e => (.error (.storage e), env)
    | .ok (created, db1) =>
      match cal with
      | .fail m =>
        createRollback { db := db1, nextId := env.nextId + 1 }
          (created.id.getD "") deleteThrows m
      | .ok eventId =>
        match repoUpdate db1 (created.id.getD "")
            (setCalendarEventId created eventId now) now with
        | .ok (updated, db2) => (.ok updated, { db := db2, nextId := env.nextId + 1 })
        | .error e =>
          createRollback { db := db1, nextId := env.nextId + 1 }
            (created.id.getD "") deleteThrows e.message
  else
    match sameContactConflict data.email data.phoneNumber
        (getConflictingAppointments env.db data.startAt data.endAt none) with
    | some _ =>
      (.error (.timeSlotUnavailable
        ("You already have an appointment scheduled during this time slot from "
          ++ isoString data.startAt ++ " to " ++ isoString data.endAt)), env)
    | none =>
      (.error (.timeSlotUnavailable
        ("Time slot from " ++ isoString data.startAt ++ " to "
          ++ isoString data.endAt ++ " is already booked")), env)

/-- Partial<ScheduleRequest>: the reschedule payload, every field optional. -/
structure EditPayload where
  firstName : Option String
  lastName : Option String
  email : Option String
  phoneNumber : Option String
  startAt : Option Millis
  endAt : Option Millis
  type : Option AppointmentType
  notes : Option String
  reason : Option String
deriving DecidableEq, Repr

/-- The allowed-updates merge of editAppointment: only startAt, endAt and
type are taken from the payload; id and createdAt are kept; updatedAt is set
to now; every other field keeps the existing record's value. -/
def buildUpdatedEntity (appointment : AppointmentEntity) (data : EditPayload)
    (now : Millis) : AppointmentEntity :=
  { appointment with
      startAt := data.startAt.getD appointment.startAt
      endAt := data.endAt.getD appointment.endAt
      type := data.type.getD appointment.type
      updatedAt := some now }

/-- Conflict branch of editAppointment, entered when both a new start and end
are supplied: none when the excluded-id conflict query is empty, otherwise
the same-person or generic slot-conflict error. -/
def editConflictError (appointment : AppointmentEntity) (ns ne : Millis)
    (conflicts : List AppointmentEntity) : Option ServiceError :=
  if conflicts = [] then none
  else
    match sameContactConflict appointment.email appointment.phoneNumber conflicts with
    | some _ =>
      some (.timeSlotUnavailable
        ("You already have another appointment scheduled during this time slot from "
          ++ isoString ns ++ " to " ++ isoString ne))
    | none =>
      some (.timeSlotUnavailable "Time slot conflict: The new time slot is already booked.")

/-- The conflict re-check of editAppointment, performed only when both a new
start and a new end are supplied (Date values are always truthy). -/
def editGuard (env : Env) (appointment : AppointmentEntity)
    (appointmentId : String) (data : EditPayload) : Option ServiceError :=
  match data.startAt, data.endAt with
  | some ns, some ne =>
    editConflictError appointment ns ne
      (getConflictingAppointments env.db ns ne (some appointmentId))
  | _, _ => none

/-- AppointmentService.editAppointment: find the record, re-check conflicts
when both interval ends move, persist only the allowed fields, then try the
calendar update, whose failure (`calUpdateFails`) is caught and only
logged. -/
def editAppointment (env : Env) (now : Millis) (appointmentId : String)
    (data : EditPayload) (calUpdateFails : Bool) :
    Except ServiceError AppointmentEntity × Env :=
  match repoFindById env.db appointmentId with
  | none =>
    (.error (.notFound ("Appointment with ID " ++ appointmentId ++ " not found")), env)
  | some appointment =>
    match editGuard env appointment appointmentId data with
    | some e => (.error e, env)
    | none =>
      match repoUpdate env.db appointmentId (buildUpdatedEntity appointment data now) now with
      | .error e => (.error (.storage e), env)
      | .ok (dbResult, db2) => (.ok dbResult, { env with db := db2 })

/-- AppointmentService.validateAppointmentCanBeCancelled.  The source
compares `(startAt - now) / 3600000 < 2` in floating point; at millisecond
precision this is exactly the integer comparison `startAt - now <
7200000`. -/
def validateAppointmentCanBeCancelled (appointment : AppointmentEntity)
    (now : Millis) : Option ServiceError :=
  if appointment.status = .cancelled then
    some (.cancellationError "Appointment is already cancelled")
  else if appointment.status = .completed then
    some (.cancellationError "Cannot cancel completed appointments")
  else if appointment.startAt - now < 7200000 then
    some (.cancellationError "Cannot cancel appointments less than 2 hours before start time")
  else none

/-- AppointmentService.cancelAppointment: find the record, validate the
business rules, mark it cancelled and persist, then try the calendar delete,
whose failure (`calDeleteFails`) is caught and only logged. -/
def cancelAppointment (env : Env) (now : Millis) (appointmentId : String)
    (calDeleteFails : Bool) : Except ServiceError Bool × Env :=
  match repoFindById env.db appointmentId with
  | none =>
    (.error (.notFound ("Appointment with ID " ++ appointmentId ++ " not found")), env)
  | some appointment =>
    match validateAppointmentCanBeCancelled appointment now with
    | some e => (.error e, env)
    | none =>
      match repoUpdate env.db appointmentId
          { appointment with status := AppointmentStatus.cancelled, updatedAt := some now }
          now with
      | .error e => (.error (.storage e), env)
      | .ok (_, db2) => (.ok true, { env with db := db2 })

/-- Demo row used by concrete witnesses: an active appointment on
the half-open hour starting at the epoch. -/
def rowA : DbRow :=
  { id := "a1", firstName := "Ann", lastName := "Lee", email := some "a@x.y",
    phoneNumber := none, startAt := 0, endAt := 3600000,
    type := .consultation, status := .scheduled, notes := "n", reason := none,
    calendarEventId := none, createdAt := 0, updatedAt := none }

/-- Demo row two hours after rowA, same contact. -/
def rowB : DbRow := { rowA with id := "a2", startAt := 7200000, endAt := 10800000 }

/-- Demo row with the same slot as rowA but already cancelled. -/
def rowC : DbRow := { rowA with id := "c1", status := .cancelled }

/-- Demo create request matching rowA's slot. -/
def reqA : ScheduleRequest :=
  { firstName := "Ann", lastName := "Lee", email := some "a@x.y",
    phoneNumber := none, startAt := 0, endAt := 3600000,
    type := .consultation, notes := "n", reason := none }

/-- Demo entity built from the demo request at time 0. -/
def entA : AppointmentEntity := entityFromRequest 0 reqA

/-- Row produced by inserting the demo request into an empty table. -/
def rowIns : DbRow :=
  { id := genId 0, firstName := "Ann", lastName := "Lee", email := some "a@x.y",
    phoneNumber := none, startAt := 0, endAt := 3600000,
    type := .consultation, status := .scheduled, notes := "n", reason := none,
    calendarEventId := none, createdAt := 0, updatedAt := none }

/-- Descending-by-start check on a result list, the order the specification
asserts for the active-by-contact query. -/
def isDescByStart : List AppointmentEntity → Bool
  | [] => true
  | [_] => true
  | a :: b :: rest => decide (b.startAt ≤ a.startAt) && isDescByStart (b :: rest)

theorem strOrNone_idem (o : Option String) : strOrNone (strOrNone o) = strOrNone o := by
  cases o with
  | none => rfl
  | some s =>
    by_cases h : s = "" <;> simp [strOrNone, h]

theorem conflictWhere_eq_true_iff (s e : Millis) (excl : Option String) (r : DbRow) :
    conflictWhere s e excl r = true ↔
      r.startAt < e ∧ r.endAt > s ∧ isActiveStatus r.status = true ∧
        (∀ x, excl = some x → r.id ≠ x) := by
  cases excl <;>
    simp [conflictWhere, and_assoc]

/-- C1: the conflict query returns exactly the active-status records whose
interval overlaps the queried interval under the half-open predicate
a.start < b.end AND a.end > b.start, optionally excluding one id; a record
merely touching the queried interval at a boundary is never matched. -/
theorem conflictQuery_exact_and_boundary (db : List DbRow) (s e : Millis)
    (excl : Option String) :
    (∀ a : AppointmentEntity,
        a ∈ getConflictingAppointments db s e excl ↔
          ∃ r : DbRow, r ∈ db ∧ isActiveStatus r.status = true ∧
            r.startAt < e ∧ r.endAt > s ∧ (∀ x, excl = some x → r.id ≠ x) ∧
            a = mapRowToEntity r) ∧
    (∀ r : DbRow, r.endAt = s → conflictWhere s e excl r = false) ∧
    (∀ r : DbRow, r.startAt = e → conflictWhere s e excl r = false) := by
  refine ⟨?_, ?_, ?_⟩
  · intro a
    simp only [getConflictingAppointments, List.mem_map, List.mem_filter,
      conflictWhere_eq_true_iff]
    constructor
    · rintro ⟨r, ⟨hm, h1, h2, h3, h4⟩, rfl⟩
      exact ⟨r, hm, h3, h1, h2, h4, rfl⟩
    · rintro ⟨r, hm, h3, h1, h2, h4, rfl⟩
      exact ⟨r, ⟨hm, h1, h2, h3, h4⟩, rfl⟩
  · intro r h
    have hb : decide (r.endAt > s) = false := by simp [h]
    simp [conflictWhere, hb]
  · intro r h
    have hb : decide (r.startAt < e) = false := by simp [h]
    simp [conflictWhere, hb]

/-- C1 witness: concrete overlap is reported, concrete boundary touches are
not. -/
theorem conflictQuery_exact_and_boundary_witness :
    (mapRowToEntity rowA ∈ getConflictingAppointments [rowA] 1800000 5400000 none) ∧
    conflictWhere 3600000 7200000 none rowA = false ∧
    conflictWhere (-3600000) 0 none rowA = false := by
  refine ⟨?_, ?_, ?_⟩
  · exact ((conflictQuery_exact_and_boundary [rowA] 1800000 5400000 none).1
      (mapRowToEntity rowA)).mpr
      ⟨rowA, by simp, by decide, by decide, by decide, by simp, rfl⟩
  · exact (conflictQuery_exact_and_boundary [rowA] 3600000 7200000 none).2.1 rowA (by decide)
  · exact (conflictQuery_exact_and_boundary [rowA] (-3600000) 0 none).2.2 rowA (by decide)

theorem mem_insertByStart (r x : DbRow) (l : List DbRow) :
    x ∈ insertByStart r l ↔ x = r ∨ x ∈ l := by
  induction l with
  | nil => simp [insertByStart]
  | cons y ys ih =>
    by_cases h : r.startAt ≤ y.startAt
    · simp [insertByStart, h]
    · simp [insertByStart, h, ih]
      tauto

theorem mem_sortByStartAsc (x : DbRow) (l : List DbRow) :
    x ∈ sortByStartAsc l ↔ x ∈ l := by
  induction l with
  | nil => simp [sortByStartAsc]
  | cons y ys ih => simp [sortByStartAsc, mem_insertByStart, ih]

theorem pairwise_insertByStart (r : DbRow) (l : List DbRow)
    (h : l.Pairwise (fun a b => a.startAt ≤ b.startAt)) :
    (insertByStart r l).Pairwise (fun a b => a.startAt ≤ b.startAt) := by
  induction l with
  | nil => simp [insertByStart]
  | cons y ys ih =>
    rcases List.pairwise_cons.mp h with ⟨hy, hys⟩
    by_cases hc : r.startAt ≤ y.startAt
    · simp only [insertByStart, if_pos hc]
      refine List.pairwise_cons.mpr ⟨?_, h⟩
      intro b hb
      rcases List.mem_cons.mp hb with rfl | hb2
      · exact hc
      · exact le_trans hc (hy b hb2)
    · simp only [insertByStart, if_neg hc]
      refine List.pairwise_cons.mpr ⟨?_, ih hys⟩
      intro b hb
      rcases (mem_insertByStart r b ys).mp hb with rfl | hb2
      · exact le_of_not_le hc
      · exact hy b hb2

theorem pairwise_sortByStartAsc (l : List DbRow) :
    (sortByStartAsc l).Pairwise (fun a b => a.startAt ≤ b.startAt) := by
  induction l with
  | nil => simp [sortByStartAsc]
  | cons y ys ih => exact pairwise_insertByStart y _ ih

/-- C9 counterexample: with two active rows for the same contact the query
returns them earliest-start-first, so the result is not ordered
most-recent-start-first. -/
theorem activeByContact_order_cx :
    getActiveAppointmentsByEmailOrPhone [rowA, rowB] "a@x.y"
      = [mapRowToEntity rowA, mapRowToEntity rowB] ∧
    (mapRowToEntity rowA).startAt < (mapRowToEntity rowB).startAt ∧
    isDescByStart (getActiveAppointmentsByEmailOrPhone [rowA, rowB] "a@x.y") = false := by
  refine ⟨rfl, by decide, rfl⟩

/-- C9 amended: findActiveByContact returns exactly the records whose status
is in (scheduled, confirmed) and whose email or phone equals the given value,
ordered ascending by start time (earliest-start-first), as the SQL
ORDER BY start_at does. -/
theorem activeByContact_exact_and_ascending (db : List DbRow) (v : String) :
    (∀ a : AppointmentEntity,
        a ∈ getActiveAppointmentsByEmailOrPhone db v ↔
          ∃ r : DbRow, r ∈ db ∧ isActiveStatus r.status = true ∧
            (r.email = some v ∨ r.phoneNumber = some v) ∧ a = mapRowToEntity r) ∧
    (getActiveAppointmentsByEmailOrPhone db v).Pairwise
      (fun a b => a.startAt ≤ b.startAt) := by
  constructor
  · intro a
    simp only [getActiveAppointmentsByEmailOrPhone, List.mem_map,
      mem_sortByStartAsc, List.mem_filter, contactWhere, Bool.and_eq_true,
      Bool.or_eq_true, decide_eq_true_eq]
    constructor
    · rintro ⟨r, ⟨hm, hor, hact⟩, rfl⟩
      exact ⟨r, hm, hact, hor, rfl⟩
    · rintro ⟨r, hm, hact, hor, rfl⟩
      exact ⟨r, ⟨hm, hor, hact⟩, rfl⟩
  · exact List.pairwise_map.mpr (pairwise_sortByStartAsc (db.filter (contactWhere v)))

/-- C9 amended witness: the demo active rows are returned and the result is
ascending by start. -/
theorem activeByContact_exact_and_ascending_witness :
    (mapRowToEntity rowB ∈ getActiveAppointmentsByEmailOrPhone [rowA, rowB] "a@x.y") ∧
    (getActiveAppointmentsByEmailOrPhone [rowA, rowB] "a@x.y").Pairwise
      (fun a b => a.startAt ≤ b.startAt) := by
  constructor
  · exact ((activeByContact_exact_and_ascending [rowA, rowB] "a@x.y").1
      (mapRowToEntity rowB)).mpr ⟨rowB, by simp, by decide, by decide, rfl⟩
  · exact (activeByContact_exact_and_ascending [rowA, rowB] "a@x.y").2

theorem find?_map_of_pres (p : DbRow → Bool) (f : DbRow → DbRow)
    (hf : ∀ r, p (f r) = p r) (l : List DbRow) :
    (l.map f).find? p = (l.find? p).map f := by
  induction l with
  | nil => rfl
  | cons x xs ih =>
    rw [List.map_cons, List.find?_cons, List.find?_cons, hf x]
    cases hp : p x <;> simp [ih]

theorem updatedTable_find? (db : List DbRow) (id : String)
    (a : AppointmentEntity) (now : Millis) :
    (updatedTable db id a now).find? (fun r => decide (r.id = id)) =
      (db.find? (fun r => decide (r.id = id))).map
        (fun r => if r.id = id then applyUpdateRow a now r else r) := by
  unfold updatedTable
  refine find?_map_of_pres _ _ ?_ db
  intro r
  by_cases h : r.id = id <;> simp [h, applyUpdateRow]

theorem repoUpdate_of_found (db : List DbRow) (id : String)
    (a : AppointmentEntity) (now : Millis) (row : DbRow)
    (h : db.find? (fun r => decide (r.id = id)) = some row) :
    repoUpdate db id a now =
      .ok (mapRowToEntity (applyUpdateRow a now row), updatedTable db id a now) := by
  have hid : row.id = id := by simpa using List.find?_some h
  unfold repoUpdate
  rw [updatedTable_find?, h]
  simp [hid]

theorem repoUpdate_of_missing (db : List DbRow) (id : String)
    (a : AppointmentEntity) (now : Millis)
    (h : db.find? (fun r => decide (r.id = id)) = none) :
    repoUpdate db id a now = .error (.mapUndefined "Cannot read properties of undefined") := by
  unfold repoUpdate
  rw [updatedTable_find?, h]
  rfl

theorem repoFindById_eq_some_iff (db : List DbRow) (id : String)
    (apt : AppointmentEntity) :
    repoFindById db id = some apt ↔
      ∃ row, db.find? (fun r => decide (r.id = id)) = some row ∧
        apt = mapRowToEntity row := by
  unfold repoFindById
  cases h : db.find? (fun r => decide (r.id = id)) <;> simp [h, eq_comm]

/-- C8 counterexample: Store.update on an id that does not exist fails with
the row-mapping TypeError (reading the first row of an empty result), not
with a NotFound error. -/
theorem update_missing_id_cx :
    repoUpdate [] "missing" entA 5
      = .error (.mapUndefined "Cannot read properties of undefined") := rfl

/-- C8 amended: Store.update(id, record) fails when no record with the given
id exists, but with the generic row-mapping TypeError rather than NotFound;
when a record with the id exists it replaces exactly the mutable columns
(interval, kind, metadata, calendar reference, status, updatedAt), keeping
id, name, contact, reason and createdAt unchanged. -/
theorem update_missing_and_frame (db : List DbRow) (id : String)
    (a : AppointmentEntity) (now : Millis) :
    ((∀ r ∈ db, r.id ≠ id) →
        repoUpdate db id a now
          = .error (.mapUndefined "Cannot read properties of undefined")) ∧
    ((∃ r ∈ db, r.id = id) →
        ∃ row, row ∈ db ∧ row.id = id ∧
          repoUpdate db id a now
            = .ok (mapRowToEntity (applyUpdateRow a now row), updatedTable db id a now)) ∧
    (∀ r : DbRow,
        (applyUpdateRow a now r).startAt = a.startAt ∧
        (applyUpdateRow a now r).endAt = a.endAt ∧
        (applyUpdateRow a now r).type = a.type ∧
        (applyUpdateRow a now r).notes = a.notes ∧
        (applyUpdateRow a now r).calendarEventId = a.calendarEventId ∧
        (applyUpdateRow a now r).status = a.status ∧
        (applyUpdateRow a now r).updatedAt = some now ∧
        (applyUpdateRow a now r).id = r.id ∧
        (applyUpdateRow a now r).firstName = r.firstName ∧
        (applyUpdateRow a now r).lastName = r.lastName ∧
        (applyUpdateRow a now r).email = r.email ∧
        (applyUpdateRow a now r).phoneNumber = r.phoneNumber ∧
        (applyUpdateRow a now r).reason = r.reason ∧
        (applyUpdateRow a now r).createdAt = r.createdAt) := by
  refine ⟨?_, ?_, ?_⟩
  · intro hnone
    refine repoUpdate_of_missing db id a now (List.find?_eq_none.mpr ?_)
    intro r hr
    simpa using hnone r hr
  · rintro ⟨r, hr, hid⟩
    have hsome : ∃ row, db.find? (fun x => decide (x.id = id)) = some row := by
      have : (db.find? (fun x => decide (x.id = id))).isSome := by
        rw [List.find?_isSome]
        exact ⟨r, hr, by simpa using hid⟩
      exact Option.isSome_iff_exists.mp this
    obtain ⟨row, hrow⟩ := hsome
    exact ⟨row, List.mem_of_find?_eq_some hrow,
      by simpa using List.find?_some hrow,
      repoUpdate_of_found db id a now row hrow⟩
  · intro r
    refine ⟨rfl, rfl, rfl, rfl, rfl, rfl, rfl, rfl, rfl, rfl, rfl, rfl, rfl, rfl⟩

/-- C8 amended witness: concrete missing-id failure and concrete
mutable-field replacement on a present id. -/
theorem update_missing_and_frame_witness :
    repoUpdate [rowA] "zz" entA 5
      = .error (.mapUndefined "Cannot read properties of undefined") ∧
    (∃ row, row ∈ [rowA] ∧ row.id = "a1" ∧
      repoUpdate [rowA] "a1" entA 5
        = .ok (mapRowToEntity (applyUpdateRow entA 5 row),
            updatedTable [rowA] "a1" entA 5)) ∧
    (applyUpdateRow entA 5 rowA).firstName = rowA.firstName := by
  refine ⟨?_, ?_, ?_⟩
  · exact (update_missing_and_frame [rowA] "zz" entA 5).1 (by decide)
  · exact (update_missing_and_frame [rowA] "a1" entA 5).2.1 ⟨rowA, by simp, by decide⟩
  · exact ((update_missing_and_frame [rowA] "a1" entA 5).2.2 rowA).2.2.2.2.2.2.2.2.1

theorem insertRow_ok_id (db : List DbRow) (a : AppointmentEntity)
    (newId : String) (now : Millis) (row : DbRow)
    (h : insertRow db a newId now = .ok row) : row.id = newId := by
  unfold insertRow at h
  split_ifs at h <;>
    first
      | exact Except.noConfusion h
      | (simp only [Except.ok.injEq] at h; subst h; rfl)

/-- C4 counterexample: a cancelled record occupying exactly the requested
slot passes the active-only conflict pre-check, the INSERT then violates the
unique-slot constraint, and createAppointment surfaces the raw storage error
rather than the SlotConflict kind. -/
theorem createAppointment_raw_constraint_cx :
    createAppointment { db := [rowC], nextId := 0 } 5 reqA (.ok "evt") false
      = (.error (.storage (.uniqueViolation "appointments_unique_slot")),
          { db := [rowC], nextId := 0 }) ∧
    isSlotConflictResult
      (createAppointment { db := [rowC], nextId := 0 } 5 reqA (.ok "evt") false).1
      = false := ⟨rfl, rfl⟩

/-- C4 amended: when the conflict pre-check passes but the storage layer
raises a constraint failure on Store.create, the engine propagates that raw
storage error to its caller unchanged; it is not translated into the
SlotConflict error kind surfaced by the pre-check. -/
theorem createAppointment_propagates_storage_error (env : Env) (now : Millis)
    (data : ScheduleRequest) (cal : CalendarOutcome) (deleteThrows : Bool)
    (e : RepoError)
    (hnc : getConflictingAppointments env.db data.startAt data.endAt none = [])
    (hins : insertRow env.db (entityFromRequest now data) (genId env.nextId) now
      = .error e) :
    createAppointment env now data cal deleteThrows = (.error (.storage e), env) ∧
    isSlotConflictResult (createAppointment env now data cal deleteThrows).1 = false := by
  have hmain : createAppointment env now data cal deleteThrows = (.error (.storage e), env) := by
    unfold createAppointment
    rw [if_pos hnc]
    unfold repoCreate
    rw [hins]
  refine ⟨hmain, ?_⟩
  rw [hmain]
  rfl

/-- C4 amended witness: the concrete counterexample state run through the
amended theorem. -/
theorem createAppointment_propagates_storage_error_witness :
    createAppointment { db := [rowC], nextId := 0 } 5 reqA (.ok "evt") true
      = (.error (.storage (.uniqueViolation "appointments_unique_slot")),
          { db := [rowC], nextId := 0 }) := by
  exact (createAppointment_propagates_storage_error { db := [rowC], nextId := 0 } 5 reqA
    (.ok "evt") true (.uniqueViolation "appointments_unique_slot") (by decide) (by decide)).1

theorem repoDelete_append_fresh (db : List DbRow) (row : DbRow)
    (hfresh : ∀ r ∈ db, r.id ≠ row.id) :
    (repoDelete (db ++ [row]) row.id).2 = db := by
  show (db ++ [row]).filter (fun r => decide (r.id ≠ row.id)) = db
  rw [List.filter_append]
  have h1 : db.filter (fun r => decide (r.id ≠ row.id)) = db :=
    List.filter_eq_self.mpr (fun r hr => by simpa using hfresh r hr)
  have h2 : List.filter (fun r => decide (r.id ≠ row.id)) [row] = [] := by simp
  rw [h1, h2, List.append_nil]

/-- C2: createAppointment writes the store before the calendar call; when the
calendar create fails it attempts the compensation delete, and whether that
delete succeeds (store restored exactly) or itself throws (the freshly
written orphan row remains, witnessing that the store write preceded the
calendar call), the caller receives the sync-failure error and never a
success. -/
theorem createAppointment_syncFailure_rollback (env : Env) (now : Millis)
    (data : ScheduleRequest) (m : String) (deleteThrows : Bool) (row : DbRow)
    (hnc : getConflictingAppointments env.db data.startAt data.endAt none = [])
    (hfresh : ∀ r ∈ env.db, r.id ≠ genId env.nextId)
    (hins : insertRow env.db (entityFromRequest now data) (genId env.nextId) now
      = .ok row) :
    createAppointment env now data (.fail m) deleteThrows
      = (.error (.syncFailure ("Failed to create calendar event: " ++ m)),
          if deleteThrows then { db := env.db ++ [row], nextId := env.nextId + 1 }
          else { db := env.db, nextId := env.nextId + 1 }) := by
  have hid : row.id = genId env.nextId :=
    insertRow_ok_id env.db _ _ now row hins
  have hfresh2 : ∀ r ∈ env.db, r.id ≠ row.id := by
    intro r hr
    rw [hid]
    exact hfresh r hr
  unfold createAppointment
  rw [if_pos hnc]
  unfold repoCreate
  rw [hins]
  show createRollback { db := env.db ++ [row], nextId := env.nextId + 1 }
      ((mapRowToEntity row).id.getD "") deleteThrows m = _
  have hgid : (mapRowToEntity row).id.getD "" = row.id := rfl
  unfold createRollback
  rw [hgid]
  cases deleteThrows with
  | true => simp
  | false =>
    simp only [Bool.false_eq_true, if_false, if_neg]
    rw [repoDelete_append_fresh env.db row hfresh2]

/-- C2 witness: creating into an empty store with a failing calendar call,
for both compensation outcomes. -/
theorem createAppointment_syncFailure_rollback_witness :
    createAppointment { db := [], nextId := 0 } 0 reqA (.fail "boom") false
      = (.error (.syncFailure ("Failed to create calendar event: " ++ "boom")),
          { db := [], nextId := 1 }) ∧
    createAppointment { db := [], nextId := 0 } 0 reqA (.fail "boom") true
      = (.error (.syncFailure ("Failed to create calendar event: " ++ "boom")),
          { db := [] ++ [rowIns], nextId := 1 }) := by
  constructor
  · exact createAppointment_syncFailure_rollback { db := [], nextId := 0 } 0 reqA
      "boom" false rowIns (by decide) (by simp) (by decide)
  · exact createAppointment_syncFailure_rollback { db := [], nextId := 0 } 0 reqA
      "boom" true rowIns (by decide) (by simp) (by decide)

/-- C3: cancelAppointment rejects terminal statuses and the strict 2-hour
lead-time cutoff with a cancellation error, leaving the store untouched, and
allows cancellation when at least 2 hours remain (exactly 2 hours included;
1 hour 59 minutes is 7140000 ms, inside the strict cutoff). -/
theorem cancelAppointment_validation_rules (env : Env) (now : Millis)
    (id : String) (apt : AppointmentEntity) (calDeleteFails : Bool)
    (hfind : repoFindById env.db id = some apt) :
    ((apt.status = .cancelled ∨ apt.status = .completed) →
        ∃ m, cancelAppointment env now id calDeleteFails
          = (.error (.cancellationError m), env)) ∧
    (apt.status ≠ .cancelled → apt.status ≠ .completed →
      apt.startAt - now < 7200000 →
        cancelAppointment env now id calDeleteFails
          = (.error (.cancellationError
              "Cannot cancel appointments less than 2 hours before start time"), env)) ∧
    (apt.status ≠ .cancelled → apt.status ≠ .completed →
      7200000 ≤ apt.startAt - now →
        ∃ env2, cancelAppointment env now id calDeleteFails = (.ok true, env2)) := by
  refine ⟨?_, ?_, ?_⟩
  · intro hst
    have hv : ∃ m, validateAppointmentCanBeCancelled apt now
        = some (.cancellationError m) := by
      rcases hst with h | h
      · exact ⟨"Appointment is already cancelled",
          by simp [validateAppointmentCanBeCancelled, h]⟩
      · exact ⟨"Cannot cancel completed appointments",
          by simp [validateAppointmentCanBeCancelled, h]⟩
    obtain ⟨m, hv⟩ := hv
    refine ⟨m, ?_⟩
    simp [cancelAppointment, hfind, hv]
  · intro h1 h2 h3
    have hv : validateAppointmentCanBeCancelled apt now
        = some (.cancellationError
            "Cannot cancel appointments less than 2 hours before start time") := by
      simp [validateAppointmentCanBeCancelled, h1, h2, h3]
    simp [cancelAppointment, hfind, hv]
  · intro h1 h2 h3
    have hlt : ¬ (apt.startAt - now < 7200000) := not_lt.mpr h3
    have hv : validateAppointmentCanBeCancelled apt now = none := by
      simp [validateAppointmentCanBeCancelled, h1, h2, hlt]
    obtain ⟨row, hrow, -⟩ := (repoFindById_eq_some_iff env.db id apt).mp hfind
    have hru := repoUpdate_of_found env.db id
      ({ apt with status := AppointmentStatus.cancelled, updatedAt := some now }) now row hrow
    exact ⟨{ env with db := updatedTable env.db id ({ apt with status := AppointmentStatus.cancelled, updatedAt := some now }) now }, by simp [cancelAppointment, hfind, hv, hru]⟩

/-- C3 witness: already-cancelled rejection, 1-hour-59-minute rejection, and
exactly-2-hours success on concrete stores. -/
theorem cancelAppointment_validation_rules_witness :
    (∃ m, cancelAppointment { db := [rowC], nextId := 1 } 0 "c1" false
        = (.error (.cancellationError m), { db := [rowC], nextId := 1 })) ∧
    cancelAppointment { db := [rowA], nextId := 1 } (-7140000) "a1" false
      = (.error (.cancellationError
          "Cannot cancel appointments less than 2 hours before start time"),
          { db := [rowA], nextId := 1 }) ∧
    (∃ env2, cancelAppointment { db := [rowA], nextId := 1 } (-7200000) "a1" false
        = (.ok true, env2)) := by
  refine ⟨?_, ?_, ?_⟩
  · exact (cancelAppointment_validation_rules { db := [rowC], nextId := 1 } 0 "c1"
      (mapRowToEntity rowC) false (by decide)).1 (Or.inl (by decide))
  · exact (cancelAppointment_validation_rules { db := [rowA], nextId := 1 } (-7140000) "a1"
      (mapRowToEntity rowA) false (by decide)).2.1 (by decide) (by decide) (by decide)
  · exact (cancelAppointment_validation_rules { db := [rowA], nextId := 1 } (-7200000) "a1"
      (mapRowToEntity rowA) false (by decide)).2.2 (by decide) (by decide) (by decide)

/-- C5: a failing calendar call after the store write changes nothing: the
edit and cancel operations return exactly what they return when the calendar
call succeeds, and a successful result always leaves the updated (resp.
cancelled) record in the store. -/
theorem calendarFailure_not_rolled_back (env : Env) (now : Millis)
    (idE idC : String) (data : EditPayload) (cfE cfC : Bool)
    (r : AppointmentEntity) (env1 : Env) (b : Bool) (env2 : Env) :
    (editAppointment env now idE data cfE = editAppointment env now idE data false) ∧
    (cancelAppointment env now idC cfC = cancelAppointment env now idC false) ∧
    (editAppointment env now idE data cfE = (.ok r, env1) →
        ∃ row, row ∈ env1.db ∧ mapRowToEntity row = r ∧ row.id = idE) ∧
    (cancelAppointment env now idC cfC = (.ok b, env2) →
        ∃ row, row ∈ env2.db ∧ row.id = idC ∧ row.status = AppointmentStatus.cancelled ∧
          row.updatedAt = some now) := by
  refine ⟨rfl, rfl, ?_, ?_⟩
  · intro h
    cases hf : repoFindById env.db idE with
    | none => simp [editAppointment, hf] at h
    | some apt =>
      cases hg : editGuard env apt idE data with
      | some e => simp [editAppointment, hf, hg] at h
      | none =>
        cases hrow : env.db.find? (fun x => decide (x.id = idE)) with
        | none =>
          have hm := repoUpdate_of_missing env.db idE (buildUpdatedEntity apt data now) now hrow
          simp [editAppointment, hf, hg, hm] at h
        | some row =>
          have hid : row.id = idE := by simpa using List.find?_some hrow
          have hru := repoUpdate_of_found env.db idE (buildUpdatedEntity apt data now) now row hrow
          simp only [editAppointment, hf, hg, hru, Prod.mk.injEq, Except.ok.injEq] at h
          obtain ⟨hr, henv⟩ := h
          refine ⟨applyUpdateRow (buildUpdatedEntity apt data now) now row, ?_, hr, ?_⟩
          · rw [← henv]
            refine List.mem_of_find?_eq_some (p := fun x => decide (x.id = idE)) ?_
            rw [updatedTable_find?, hrow]
            simp [hid]
          · simpa [applyUpdateRow] using hid
  · intro h
    cases hf : repoFindById env.db idC with
    | none => simp [cancelAppointment, hf] at h
    | some apt =>
      cases hv : validateAppointmentCanBeCancelled apt now with
      | some e => simp [cancelAppointment, hf, hv] at h
      | none =>
        cases hrow : env.db.find? (fun x => decide (x.id = idC)) with
        | none =>
          have hm := repoUpdate_of_missing env.db idC
            ({ apt with status := AppointmentStatus.cancelled, updatedAt := some now }) now hrow
          simp [cancelAppointment, hf, hv, hm] at h
        | some row =>
          have hid : row.id = idC := by simpa using List.find?_some hrow
          have hru := repoUpdate_of_found env.db idC
            ({ apt with status := AppointmentStatus.cancelled, updatedAt := some now }) now row hrow
          simp only [cancelAppointment, hf, hv, hru, Prod.mk.injEq, Except.ok.injEq] at h
          obtain ⟨-, henv⟩ := h
          refine ⟨applyUpdateRow
            ({ apt with status := AppointmentStatus.cancelled, updatedAt := some now }) now row,
            ?_, ?_, rfl, rfl⟩
          · rw [← henv]
            refine List.mem_of_find?_eq_some (p := fun x => decide (x.id = idC)) ?_
            rw [updatedTable_find?, hrow]
            simp [hid]
          · simpa [applyUpdateRow] using hid

/-- Cancelled entity for the concrete C5 witness. -/
def cancelledEntA : AppointmentEntity :=
  { mapRowToEntity rowA with status := AppointmentStatus.cancelled, updatedAt := some (-7200000) }

/-- Store state after cancelling rowA in the C5 witness. -/
def dbCancelledA : List DbRow := updatedTable [rowA] "a1" cancelledEntA (-7200000)

/-- C5 witness: a concrete cancellation run with the calendar delete failing
still commits the cancelled row. -/
theorem calendarFailure_not_rolled_back_witness :
    ∃ row, row ∈ (Env.mk dbCancelledA 1).db ∧ row.id = "a1" ∧
      row.status = AppointmentStatus.cancelled ∧ row.updatedAt = some (-7200000) :=
  (calendarFailure_not_rolled_back { db := [rowA], nextId := 1 } (-7200000) "zz" "a1"
    (EditPayload.mk none none none none none none none none none) false true
    (mapRowToEntity rowA) { db := [rowA], nextId := 1 } true
    (Env.mk dbCancelledA 1)).2.2.2 (by decide)

/-- C7: a successful reschedule changes at most the interval, the kind and
updatedAt in the record handed back from Store.update; every other field of
the found record (name, contact, notes, reason, status, calendar reference,
id, createdAt) keeps its prior value no matter what else the payload
contains. -/
theorem reschedule_frame_fields (env : Env) (now : Millis) (id : String)
    (data : EditPayload) (cf : Bool) (r apt : AppointmentEntity) (env1 : Env)
    (hfind : repoFindById env.db id = some apt)
    (hok : editAppointment env now id data cf = (.ok r, env1)) :
    r.firstName = apt.firstName ∧ r.lastName = apt.lastName ∧
    r.email = apt.email ∧ r.phoneNumber = apt.phoneNumber ∧
    r.notes = apt.notes ∧ r.reason = apt.reason ∧ r.status = apt.status ∧
    r.createdAt = apt.createdAt ∧ r.calendarEventId = apt.calendarEventId ∧
    r.id = apt.id ∧
    r.startAt = data.startAt.getD apt.startAt ∧
    r.endAt = data.endAt.getD apt.endAt ∧
    r.type = data.type.getD apt.type ∧
    r.updatedAt = some now := by
  obtain ⟨row0, hrow0, hapt⟩ := (repoFindById_eq_some_iff env.db id apt).mp hfind
  cases hg : editGuard env apt id data with
  | some e => simp [editAppointment, hfind, hg] at hok
  | none =>
    have hru := repoUpdate_of_found env.db id (buildUpdatedEntity apt data now) now row0 hrow0
    simp only [editAppointment, hfind, hg, hru, Prod.mk.injEq, Except.ok.injEq] at hok
    obtain ⟨hr, -⟩ := hok
    subst hapt
    rw [← hr]
    refine ⟨rfl, rfl, rfl, rfl, rfl, rfl, rfl, rfl, ?_, rfl, rfl, rfl, rfl, rfl⟩
    exact strOrNone_idem _

/-- Over-posting payload for the concrete C7 witness: moves the interval and
kind but also tries to change name, email and notes. -/
def payC : EditPayload :=
  { firstName := some "Bob", lastName := none, email := some "b@z.w",
    phoneNumber := none, startAt := some 7200000, endAt := some 10800000,
    type := some .followUp, notes := some "other", reason := none }

/-- Record returned by the C7 witness reschedule. -/
def entUpdC : AppointmentEntity :=
  mapRowToEntity (applyUpdateRow (buildUpdatedEntity (mapRowToEntity rowA) payC 99) 99 rowA)

/-- Store state after the C7 witness reschedule. -/
def envUpdC : Env :=
  { db := updatedTable [rowA] "a1" (buildUpdatedEntity (mapRowToEntity rowA) payC 99) 99,
    nextId := 1 }

/-- C7 witness: a concrete over-posting payload leaves name, email and notes
unchanged while the interval moves. -/
theorem reschedule_frame_fields_witness :
    entUpdC.firstName = (mapRowToEntity rowA).firstName ∧
    entUpdC.email = (mapRowToEntity rowA).email ∧
    entUpdC.notes = (mapRowToEntity rowA).notes ∧
    entUpdC.startAt = 7200000 := by
  have h := reschedule_frame_fields { db := [rowA], nextId := 1 } 99 "a1" payC true
    entUpdC (mapRowToEntity rowA) envUpdC (by decide) (by decide)
  refine ⟨h.1, h.2.2.1, h.2.2.2.2.1, ?_⟩
  rw [h.2.2.2.2.2.2.2.2.2.2.1]
  rfl

/-- C6: when the pre-check finds conflicts, createAppointment always fails
with the single slot-conflict error kind; the requester-directed message is
used exactly when some conflicting record shares the request's (present)
email or phone, the generic already-booked message otherwise. -/
theorem createAppointment_conflict_messages (env : Env) (now : Millis)
    (data : ScheduleRequest) (cal : CalendarOutcome) (dT : Bool)
    (hcf : getConflictingAppointments env.db data.startAt data.endAt none ≠ []) :
    (∃ m, createAppointment env now data cal dT
        = (.error (.timeSlotUnavailable m), env)) ∧
    ((∃ apt ∈ getConflictingAppointments env.db data.startAt data.endAt none,
        sharesContact data.email data.phoneNumber apt = true) →
      createAppointment env now data cal dT
        = (.error (.timeSlotUnavailable
            ("You already have an appointment scheduled during this time slot from "
              ++ isoString data.startAt ++ " to " ++ isoString data.endAt)), env)) ∧
    ((∀ apt ∈ getConflictingAppointments env.db data.startAt data.endAt none,
        sharesContact data.email data.phoneNumber apt = false) →
      createAppointment env now data cal dT
        = (.error (.timeSlotUnavailable
            ("Time slot from " ++ isoString data.startAt ++ " to "
              ++ isoString data.endAt ++ " is already booked")), env)) := by
  refine ⟨?_, ?_, ?_⟩
  · cases hsc : sameContactConflict data.email data.phoneNumber
        (getConflictingAppointments env.db data.startAt data.endAt none) with
    | some x =>
      refine ⟨"You already have an appointment scheduled during this time slot from "
          ++ isoString data.startAt ++ " to " ++ isoString data.endAt, ?_⟩
      unfold createAppointment
      rw [if_neg hcf, hsc]
    | none =>
      refine ⟨"Time slot from " ++ isoString data.startAt ++ " to "
          ++ isoString data.endAt ++ " is already booked", ?_⟩
      unfold createAppointment
      rw [if_neg hcf, hsc]
  · rintro ⟨apt, hmem, hsh⟩
    cases hsc : sameContactConflict data.email data.phoneNumber
        (getConflictingAppointments env.db data.startAt data.endAt none) with
    | none =>
      unfold sameContactConflict at hsc
      have := List.find?_eq_none.mp hsc apt hmem
      simp [hsh] at this
    | some x =>
      unfold createAppointment
      rw [if_neg hcf, hsc]
  · intro hall
    have hsc : sameContactConflict data.email data.phoneNumber
        (getConflictingAppointments env.db data.startAt data.endAt none) = none := by
      unfold sameContactConflict
      exact List.find?_eq_none.mpr (fun x hx => by simp [hall x hx])
    unfold createAppointment
    rw [if_neg hcf, hsc]

/-- C6 witness: a same-contact conflict yields the requester-directed message
and a different-contact conflict yields the generic message, on concrete
stores. -/
theorem createAppointment_conflict_messages_witness :
    createAppointment { db := [rowA], nextId := 1 } 0 reqA (.ok "e") false
      = (.error (.timeSlotUnavailable
          ("You already have an appointment scheduled during this time slot from "
            ++ isoString 0 ++ " to " ++ isoString 3600000)),
          { db := [rowA], nextId := 1 }) ∧
    createAppointment { db := [rowA], nextId := 1 } 0
        ({ reqA with email := some "z@q.r" }) (.ok "e") false
      = (.error (.timeSlotUnavailable
          ("Time slot from " ++ isoString 0 ++ " to " ++ isoString 3600000
            ++ " is already booked")),
          { db := [rowA], nextId := 1 }) := by
  constructor
  · exact (createAppointment_conflict_messages { db := [rowA], nextId := 1 } 0 reqA
      (.ok "e") false (by decide)).2.1 ⟨mapRowToEntity rowA, by decide, by decide⟩
  · exact (createAppointment_conflict_messages { db := [rowA], nextId := 1 } 0
      ({ reqA with email := some "z@q.r" }) (.ok "e") false (by decide)).2.2
      (by decide)

/-- C10: every validation-phase failure leaves the store exactly as it was:
a create conflict, an edit on a missing id, an edit whose new interval
conflicts, a cancel on a missing id and a cancel failing the business rules
all return their error paired with the unchanged state. -/
theorem validation_failures_leave_store (env : Env) (now : Millis)
    (data : ScheduleRequest) (cal : CalendarOutcome) (dT : Bool)
    (idE idC : String) (pdata : EditPayload) (cfE cfC : Bool) :
    (getConflictingAppointments env.db data.startAt data.endAt none ≠ [] →
        ∃ m, createAppointment env now data cal dT
          = (.error (.timeSlotUnavailable m), env)) ∧
    (repoFindById env.db idE = none →
        ∃ m, editAppointment env now idE pdata cfE = (.error (.notFound m), env)) ∧
    (∀ apt ns ne, repoFindById env.db idE = some apt →
        pdata.startAt = some ns → pdata.endAt = some ne →
        getConflictingAppointments env.db ns ne (some idE) ≠ [] →
        ∃ m, editAppointment env now idE pdata cfE
          = (.error (.timeSlotUnavailable m), env)) ∧
    (repoFindById env.db idC = none →
        ∃ m, cancelAppointment env now idC cfC = (.error (.notFound m), env)) ∧
    (∀ apt e, repoFindById env.db idC = some apt →
        validateAppointmentCanBeCancelled apt now = some e →
        cancelAppointment env now idC cfC = (.error e, env)) := by
  refine ⟨?_, ?_, ?_, ?_, ?_⟩
  · intro hcf
    cases hsc : sameContactConflict data.email data.phoneNumber
        (getConflictingAppointments env.db data.startAt data.endAt none) with
    | some x =>
      refine ⟨"You already have an appointment scheduled during this time slot from "
          ++ isoString data.startAt ++ " to " ++ isoString data.endAt, ?_⟩
      unfold createAppointment
      rw [if_neg hcf, hsc]
    | none =>
      refine ⟨"Time slot from " ++ isoString data.startAt ++ " to "
          ++ isoString data.endAt ++ " is already booked", ?_⟩
      unfold createAppointment
      rw [if_neg hcf, hsc]
  · intro hnone
    refine ⟨"Appointment with ID " ++ idE ++ " not found", ?_⟩
    unfold editAppointment
    rw [hnone]
  · intro apt ns ne hfind2 hs he hne
    have hguard : ∃ m, editGuard env apt idE pdata
        = some (.timeSlotUnavailable m) := by
      cases hsc : sameContactConflict apt.email apt.phoneNumber
          (getConflictingAppointments env.db ns ne (some idE)) with
      | some x =>
        refine ⟨"You already have another appointment scheduled during this time slot from "
            ++ isoString ns ++ " to " ++ isoString ne, ?_⟩
        simp [editGuard, hs, he, editConflictError, hne, hsc]
      | none =>
        refine ⟨"Time slot conflict: The new time slot is already booked.", ?_⟩
        simp [editGuard, hs, he, editConflictError, hne, hsc]
    obtain ⟨m, hguard⟩ := hguard
    exact ⟨m, by simp [editAppointment, hfind2, hguard]⟩
  · intro hnone
    refine ⟨"Appointment with ID " ++ idC ++ " not found", ?_⟩
    unfold cancelAppointment
    rw [hnone]
  · intro apt e hfind3 hval
    simp [cancelAppointment, hfind3, hval]

/-- C10 witness: each validation failure exercised on a concrete store,
every time returning the unchanged state. -/
theorem validation_failures_leave_store_witness :
    (∃ m, createAppointment { db := [rowA], nextId := 1 } 0 reqA (.ok "e") false
        = (.error (.timeSlotUnavailable m), { db := [rowA], nextId := 1 })) ∧
    (∃ m, editAppointment { db := [rowA], nextId := 1 } 0 "zz" payC false
        = (.error (.notFound m), { db := [rowA], nextId := 1 })) ∧
    (∃ m, editAppointment { db := [rowA, rowB], nextId := 2 } 0 "a1" payC false
        = (.error (.timeSlotUnavailable m), { db := [rowA, rowB], nextId := 2 })) ∧
    (∃ m, cancelAppointment { db := [rowA], nextId := 1 } 0 "zz" false
        = (.error (.notFound m), { db := [rowA], nextId := 1 })) ∧
    (cancelAppointment { db := [rowC], nextId := 1 } 0 "c1" false
        = (.error (.cancellationError "Appointment is already cancelled"),
            { db := [rowC], nextId := 1 })) := by
  refine ⟨?_, ?_, ?_, ?_, ?_⟩
  · exact (validation_failures_leave_store { db := [rowA], nextId := 1 } 0 reqA
      (.ok "e") false "zz" "zz" payC false false).1 (by decide)
  · exact (validation_failures_leave_store { db := [rowA], nextId := 1 } 0 reqA
      (.ok "e") false "zz" "zz" payC false false).2.1 (by decide)
  · exact (validation_failures_leave_store { db := [rowA, rowB], nextId := 2 } 0 reqA
      (.ok "e") false "a1" "zz" payC false false).2.2.1
      (mapRowToEntity rowA) 7200000 10800000 (by decide) (by decide) (by decide) (by decide)
  · exact (validation_failures_leave_store { db := [rowA], nextId := 1 } 0 reqA
      (.ok "e") false "zz" "zz" payC false false).2.2.2.1 (by decide)
  · exact (validation_failures_leave_store { db := [rowC], nextId := 1 } 0 reqA
      (.ok "e") false "zz" "c1" payC false false).2.2.2.2
      (mapRowToEntity rowC) (.cancellationError "Appointment is already cancelled")
      (by decide) (by decide)

end MedMe
